import Mathlib

/-!
Verification development for the admissions-chatbot RAG pipeline
(backend/app/services/reranker.py, backend/app/services/answer_generator.py,
backend/app/services/search.py, backend/app/workflows/chatbot_workflow.py).

The Python services are shallowly embedded as pure Lean functions.
External collaborators (the search index, the cross-encoder, the OpenAI
chat completion endpoint, wall-clock time) are modelled as explicit
oracle parameters: an `Except String _` value is the outcome of one
external call (`.ok` = the service returned, `.error e` = the call raised
an exception whose rendering is `e`).  Relevance scores (Python floats)
are modelled by `Int`; only their ordering matters to the code under
study.  Python dicts with a fixed key set are modelled by structures;
a key that may be absent is an `Option` field (`none` = key absent).
-/

/-- Python `str.strip()` (no argument): remove leading and trailing
whitespace.  Stated over the string's character list so that it
evaluates inside the kernel. -/
def pyStrip (s : String) : String :=
  ⟨((s.data.dropWhile Char.isWhitespace).reverse.dropWhile Char.isWhitespace).reverse⟩

/-- One retrieved passage, as produced by `HybridSearch.hybrid_search`
(`search.py`): the Elasticsearch `_source` fields plus `id` and `score`.
String fields default to `""` (Python `doc.get(k, "")`; an absent or
`None` field and an empty one behave identically under Python truthiness
in all code modelled here).  `reranker_score` / `original_rank` are the
fields written by `Reranker.rerank`; `none` models key absence. -/
structure Doc where
  id : String := ""
  question : String := ""
  context : String := ""
  article : String := ""
  document : String := ""
  extractive_answer : String := ""
  abstractive_answer : String := ""
  score : Int := 0
  reranker_score : Option Int := none
  original_rank : Option Nat := none
deriving DecidableEq, Repr

/-- The configuration fields of `config.py` consumed by the code under
study.  Each is read from the environment, so theorems quantify over
arbitrary values. -/
structure Settings where
  RERANKER_ENABLED : Bool
  RERANKER_TOP_N : Nat
  ANSWER_GENERATION_ENABLED : Bool
  OPENAI_API_KEY : String
  ANSWER_GENERATION_MODEL : String
deriving DecidableEq, Repr

namespace Reranker

/-- `reranker.py` line 66: the text paired with the query for one
document: `f"{doc.get('question', '')} {doc.get('context', '')}"`. -/
def docText (d : Doc) : String := d.question ++ " " ++ d.context

/-- `reranker.py` lines 73-75 (the in-place mutation loop), starting at
0-based index `i`: each document receives `reranker_score` (its
cross-encoder score, oracle `predict` applied to the query/doc-text
pair) and `original_rank = i + 1`. -/
def annotateFrom (predict : String → String → Int) (q : String) (i : Nat) :
    List Doc → List Doc
  | [] => []
  | d :: ds =>
      { d with reranker_score := some (predict q (docText d)),
               original_rank := some (i + 1) } ::
        annotateFrom predict q (i + 1) ds

/-- The whole annotation loop of `reranker.py` lines 73-75. -/
def annotate (predict : String → String → Int) (q : String) (docs : List Doc) :
    List Doc :=
  annotateFrom predict q 0 docs

/-- Projection used as the sort key (`reranker.py` line 80):
`lambda x: x['reranker_score']`.  After `annotate` the field is always
present; `getD 0` is only a total-function default. -/
def rsD (d : Doc) : Int := d.reranker_score.getD 0

/-- Projection of `original_rank` (present after `annotate`). -/
def orD (d : Doc) : Nat := d.original_rank.getD 0

/-- The comparator realising Python `sorted(key=reranker_score,
reverse=True)`: `a` may precede `b` iff `b`'s score does not exceed
`a`'s.  Python's sort is stable; `List.mergeSort` is the stable sort of
the Lean library, so `mergeSort` with this comparator is extensionally
the Python call. -/
def rerankLE (a b : Doc) : Bool := decide (rsD b ≤ rsD a)

/-- `Reranker.rerank` (`reranker.py` lines 40-85).
`enabled` is `self.enabled = settings.RERANKER_ENABLED`;
`top_n : Option Nat` models the optional argument (`none` = not
supplied).  Python truthiness: both `None` and `0` are falsy in
`documents[:top_n] if top_n else documents` and in
`top_n = top_n or settings.RERANKER_TOP_N`. -/
def rerank (st : Settings) (predict : String → String → Int) (q : String)
    (documents : List Doc) (top_n : Option Nat) : List Doc :=
  if !st.RERANKER_ENABLED || documents.isEmpty then
    match top_n with
    | some n => if n ≠ 0 then documents.take n else documents
    | none => documents
  else
    let n := match top_n with
      | some n => if n ≠ 0 then n else st.RERANKER_TOP_N
      | none => st.RERANKER_TOP_N
    ((annotate predict q documents).mergeSort rerankLE).take n

/-- The observable state of the *input* list object after
`Reranker.rerank` returns: lines 73-75 mutate the caller's documents in
place (all of them, including those dropped by the final `[:top_n]`);
the disabled/empty early return (line 57-58) touches nothing. -/
def rerankPool (st : Settings) (predict : String → String → Int) (q : String)
    (documents : List Doc) : List Doc :=
  if !st.RERANKER_ENABLED || documents.isEmpty then documents
  else annotate predict q documents

end Reranker

/-- Token usage counts.  The model-success path of
`answer_generator.py` (lines 187-191) uses keys
`prompt_tokens`/`completion_tokens`/`total_tokens`; the fallback path
(lines 250, 281) uses `prompt`/`completion`/`total`.  Both are a
three-field count record and are modelled by this one structure. -/
structure TokensUsed where
  prompt : Nat
  completion : Nat
  total : Nat
deriving DecidableEq, Repr

/-- The response of one successful OpenAI chat-completion call
(`answer_generator.py` lines 167-190): the message content, the usage
counts and the finish reason.  Supplied by the oracle. -/
structure GenApiResp where
  content : String
  prompt_tokens : Nat
  completion_tokens : Nat
  total_tokens : Nat
  finish_reason : String
deriving DecidableEq, Repr

/-- The dictionary returned by `AnswerGenerator.generate_answer` /
`_fallback_answer`.  `error`: the success dict (lines 204-213) carries
no `error` key and the fallback dict carries one that may be `None`;
both are flattened to `Option String` (`none` = absent or `None`) —
no modelled caller distinguishes the two.  `response_time` is present
only on the success path (`none` = key absent). -/
structure GenOutcome where
  answer : String
  model : String
  tokens_used : TokensUsed
  finish_reason : String
  num_contexts_used : Nat
  generation_successful : Bool
  fallback_used : Bool
  error : Option String
  response_time : Option Nat
deriving DecidableEq, Repr

namespace AnswerGenerator

/-- `AnswerGenerator.__init__` (`answer_generator.py` lines 27-41):
`self.enabled` is true iff generation is enabled in settings and an API
key is configured; `self.client` is `None` exactly when `self.enabled`
ends up false, so the line-92 guard `not self.enabled or not
self.client` reduces to this boolean. -/
def enabled (st : Settings) : Bool :=
  st.ANSWER_GENERATION_ENABLED && st.OPENAI_API_KEY ≠ ""

/-- `AnswerGenerator._fallback_answer` (`answer_generator.py` lines
231-287).  Python `or`-chains on `.get` results treat `None` and `""`
alike (both falsy), matching the `≠ ""` tests here. -/
def fallback_answer (retrieved_contexts : List Doc) (error : Option String) :
    GenOutcome :=
  match retrieved_contexts with
  | [] =>
      { answer := "Xin lỗi, tôi không tìm thấy thông tin liên quan đến câu hỏi của bạn trong cơ sở dữ liệu.",
        model := "fallback",
        tokens_used := ⟨0, 0, 0⟩,
        finish_reason := "no_context",
        num_contexts_used := 0,
        generation_successful := false,
        fallback_used := true,
        error := error,
        response_time := none }
  | top_doc :: _ =>
      let base :=
        if top_doc.abstractive_answer ≠ "" then top_doc.abstractive_answer
        else if top_doc.extractive_answer ≠ "" then top_doc.extractive_answer
        else "Xin lỗi, tôi không thể tạo câu trả lời cho câu hỏi này."
      let source_info :=
        if top_doc.article ≠ "" || top_doc.document ≠ "" then
          "\n\n📚 Nguồn: "
            ++ (if top_doc.article ≠ "" then top_doc.article else "")
            ++ (if top_doc.document ≠ "" then " - " ++ top_doc.document else "")
        else ""
      { answer := base ++ source_info,
        model := "fallback",
        tokens_used := ⟨0, 0, 0⟩,
        finish_reason := "fallback",
        num_contexts_used := retrieved_contexts.length,
        generation_successful := false,
        fallback_used := true,
        error := error,
        response_time := none }

/-- `AnswerGenerator.generate_answer` (`answer_generator.py` lines
72-229).  `callOutcome` is the oracle for the whole `try` block's
external interaction — the single chat-completion call (every other
statement in the block is prompt construction and logging, which do not
affect the returned dict); `.error e` is any exception raised inside
the `try`, routed to `_fallback_answer` with `error=str(e)`.
`response_time` is the oracle for the wall-clock duration measured on
the success path.  The query and history parameters only shape the
prompt sent to the oracle, so the outcome depends on them only through
`callOutcome`. -/
def generate_answer (st : Settings) (callOutcome : Except String GenApiResp)
    (response_time : Nat) (retrieved_contexts : List Doc) : GenOutcome :=
  if !enabled st then fallback_answer retrieved_contexts none
  else
    match callOutcome with
    | .ok r =>
        { answer := pyStrip r.content,
          model := st.ANSWER_GENERATION_MODEL,
          tokens_used := ⟨r.prompt_tokens, r.completion_tokens, r.total_tokens⟩,
          finish_reason := r.finish_reason,
          num_contexts_used := retrieved_contexts.length,
          generation_successful := true,
          fallback_used := false,
          error := none,
          response_time := some response_time }
    | .error e => fallback_answer retrieved_contexts (some e)

end AnswerGenerator

/-- One entry of the `sources` list built by
`AdmissionsChatbotWorkflow.format_output` (`chatbot_workflow.py` lines
273-283).  `reranker_score` is copied only when the key is present on
the document (`none` = absent). -/
structure Source where
  question : String
  article : String
  document : String
  score : Int
  reranker_score : Option Int
deriving DecidableEq, Repr

/-- The workflow `metadata` dict.  Every key ever written by
`chatbot_workflow.py` is a field; `none` models key absence.  Python
dict assignment replaces the whole dict; `dict.update` merges — both
are rendered structurally below. -/
structure Metadata where
  generation_model : Option String := none
  tokens_used : Option TokensUsed := none
  generation_successful : Option Bool := none
  fallback_used : Option Bool := none
  reason : Option String := none
  error : Option String := none
  num_documents_retrieved : Option Nat := none
  retrieval_method : Option String := none
  reranker_enabled : Option Bool := none
  workflow : Option String := none
deriving DecidableEq, Repr

/-- The empty dict `{}`. -/
def Metadata.empty : Metadata := {}

/-- `ChatbotState` (`chatbot_workflow.py` lines 19-37).  A history turn
is a (role, content) pair. -/
structure ChatbotState where
  query : String
  conversation_history : Option (List (String × String))
  retrieved_documents : List Doc
  context : String
  answer : String
  sources : List Source
  metadata : Metadata
  should_retrieve : Bool
  has_context : Bool
  error : Option String
deriving DecidableEq, Repr

/-- The record returned by `AdmissionsChatbotWorkflow.run`
(`chatbot_workflow.py` lines 337-342 / 346-355). -/
structure RunResult where
  query : String
  answer : String
  sources : List Source
  metadata : Metadata
deriving DecidableEq, Repr

namespace Workflow

/-- The outcomes of the external interactions of one workflow run.
`searchOutcome`: the `self.search_engine.hybrid_search(...)` call in
`retrieve_context` (`.error e` = the call raised, line 161).
`genCallOutcome` and `genResponseTime`: the oracles threaded to
`AnswerGenerator.generate_answer`.
`genNodeExc`: an exception escaping the `self.answer_generator.
generate_answer(...)` call itself (e.g. from `get_openai_logger()`
outside its internal `try`), caught by the node's `except` (line 215).
`invokeExc`: a fault of the graph machinery during `workflow.invoke`,
caught by the top-level `except` of `run` (line 344). -/
structure Oracles where
  searchOutcome : Except String (List Doc)
  genCallOutcome : Except String GenApiResp
  genResponseTime : Nat
  genNodeExc : Option String
  invokeExc : Option String

/-- `AdmissionsChatbotWorkflow.validate_input` (lines 102-128). -/
def validate_input (state : ChatbotState) : ChatbotState :=
  let query := pyStrip state.query
  if query = "" then
    { state with error := some "Empty query", should_retrieve := false }
  else
    { state with query := query, should_retrieve := true, error := none }

/-- `AdmissionsChatbotWorkflow.retrieve_context` (lines 130-167).  The
`hybrid_search` call's outcome is the oracle `searchOutcome`; it is
consulted only when `should_retrieve` holds. -/
def retrieve_context (searchOutcome : Except String (List Doc))
    (state : ChatbotState) : ChatbotState :=
  if !state.should_retrieve then
    { state with retrieved_documents := [], has_context := false }
  else
    match searchOutcome with
    | .ok documents =>
        { state with retrieved_documents := documents,
                     has_context := documents.length > 0 }
    | .error e =>
        { state with retrieved_documents := [], has_context := false,
                     error := some ("Retrieval error: " ++ e) }

/-- `AdmissionsChatbotWorkflow.check_context` (lines 169-182). -/
def check_context (state : ChatbotState) : Bool := state.has_context

/-- `AdmissionsChatbotWorkflow.generate_answer` — the node (lines
184-224).  On success the node *assigns* a fresh four-key metadata
dict; on an exception from the generator call it assigns the two-key
dict of lines 219-222 and the fixed apology answer. -/
def generate_answer_node (st : Settings) (genCallOutcome : Except String GenApiResp)
    (genResponseTime : Nat) (genNodeExc : Option String)
    (state : ChatbotState) : ChatbotState :=
  match genNodeExc with
  | some e =>
      { state with
          answer := "Xin lỗi, tôi gặp lỗi khi tạo câu trả lời. Vui lòng thử lại.",
          error := some ("Generation error: " ++ e),
          metadata := { Metadata.empty with
                          generation_successful := some false,
                          error := some e } }
  | none =>
      let result := AnswerGenerator.generate_answer st genCallOutcome
        genResponseTime state.retrieved_documents
      { state with
          answer := result.answer,
          metadata := { Metadata.empty with
                          generation_model := some result.model,
                          tokens_used := some result.tokens_used,
                          generation_successful := some result.generation_successful,
                          fallback_used := some result.fallback_used } }

/-- The fixed no-context explanation of
`AdmissionsChatbotWorkflow.handle_no_context` (lines 238-250). -/
def noContextAnswer : String :=
  "Xin lỗi, tôi không tìm thấy thông tin liên quan đến câu hỏi của bạn trong cơ sở dữ liệu tuyển sinh.\n\nBạn có thể:\n- Thử diễn đạt câu hỏi theo cách khác\n- Cung cấp thêm chi tiết cụ thể\n- Liên hệ trực tiếp với phòng tuyển sinh để được hỗ trợ\n\nTôi có thể giúp bạn với các câu hỏi về:\n- Điều kiện xét tuyển\n- Phương thức xét tuyển\n- Hồ sơ đăng ký\n- Học phí và học bổng\n- Thời gian tuyển sinh"

/-- `AdmissionsChatbotWorkflow.handle_no_context` (lines 226-258): sets
the fixed answer and *assigns* a fresh three-key metadata dict. -/
def handle_no_context (state : ChatbotState) : ChatbotState :=
  { state with
      answer := noContextAnswer,
      metadata := { Metadata.empty with
                      generation_successful := some false,
                      fallback_used := some true,
                      reason := some "no_context_found" } }

/-- `AdmissionsChatbotWorkflow.format_output` (lines 260-299): derives
`sources` from the first three retrieved documents and merges the four
fixed retrieval keys into the existing metadata (`dict.update`). -/
def format_output (st : Settings) (state : ChatbotState) : ChatbotState :=
  let sources := (state.retrieved_documents.take 3).map (fun doc =>
    { question := doc.question, article := doc.article,
      document := doc.document, score := doc.score,
      reranker_score := doc.reranker_score : Source })
  { state with
      sources := sources,
      metadata := { state.metadata with
                      num_documents_retrieved := some state.retrieved_documents.length,
                      retrieval_method := some "hybrid_search_with_reranking",
                      reranker_enabled := some st.RERANKER_ENABLED,
                      workflow := some "langgraph" } }

/-- The compiled graph of `_build_workflow` (lines 68-100), executed by
`workflow.invoke`: validate → retrieve → conditional branch on
`check_context` → (generate | no-context) → format. -/
def invoke (st : Settings) (o : Oracles) (state : ChatbotState) : ChatbotState :=
  let s1 := validate_input state
  let s2 := retrieve_context o.searchOutcome s1
  let s3 :=
    if check_context s2 then
      generate_answer_node st o.genCallOutcome o.genResponseTime o.genNodeExc s2
    else
      handle_no_context s2
  format_output st s3

/-- The initial state built by `run` (lines 319-330). -/
def initialState (query : String)
    (conversation_history : Option (List (String × String))) : ChatbotState :=
  { query := query, conversation_history := conversation_history,
    retrieved_documents := [], context := "", answer := "", sources := [],
    metadata := Metadata.empty, should_retrieve := true,
    has_context := false, error := none }

/-- `AdmissionsChatbotWorkflow.run` (lines 301-355): invoke the graph
and project the four returned keys; any exception is converted to the
fixed apology record of lines 346-355. -/
def run (st : Settings) (o : Oracles) (query : String)
    (conversation_history : Option (List (String × String))) : RunResult :=
  match o.invokeExc with
  | some e =>
      { query := query,
        answer := "Xin lỗi, hệ thống gặp lỗi. Vui lòng thử lại sau.",
        sources := [],
        metadata := { Metadata.empty with
                        error := some e,
                        workflow := some "langgraph",
                        generation_successful := some false } }
  | none =>
      let final_state := invoke st o (initialState query conversation_history)
      { query := final_state.query,
        answer := final_state.answer,
        sources := final_state.sources,
        metadata := final_state.metadata }

end Workflow

namespace HybridSearch

/-- The instance attributes assigned by `HybridSearch.__init__`
(`search.py` lines 20-48): `self.es_client` (line 30), `self.index_name`
(line 31), `self.embedding_model` (lines 34-39), `self.reranker` (lines
41-45).  The `self.answer_generator = get_answer_generator()` assignment
is commented out (line 48), and the class declares no class-level
attribute of that name, so attribute lookup on `answer_generator` fails. -/
def initAttrs : List String :=
  ["es_client", "index_name", "embedding_model", "reranker"]

/-- The metadata dict built by `HybridSearch.search_and_generate`
(`search.py` lines 256-270): the fixed retrieval keys merged with the
spread `**generation_metadata`. -/
structure SAGMetadata where
  retrieval_method : String
  num_documents_retrieved : Nat
  num_documents_used : Nat
  reranker_enabled : Bool
  answer_generation_enabled : Bool
  model : String
  tokens_used : TokensUsed
  finish_reason : Option String
  generation_successful : Bool
  fallback_used : Bool
  error : Option String
deriving DecidableEq, Repr

/-- The dict returned by `HybridSearch.search_and_generate`. -/
structure SAGResult where
  query : String
  generated_answer : String
  retrieved_documents : List Doc
  metadata : SAGMetadata
deriving DecidableEq, Repr

/-- `HybridSearch.search_and_generate` (`search.py` lines 195-270).
`retrieved_documents` is the outcome of the step-1 `hybrid_search` call
(an external interaction, supplied resolved).  The generation branch
reads `self.answer_generator` (line 223); since that attribute is not
among `initAttrs`, Python raises `AttributeError` there and the method
returns nothing — modelled as the `.error` result.  The `Except` value
is the method's outcome: `.ok` = returned dict, `.error` = exception. -/
def search_and_generate (st : Settings) (retrieved_documents : List Doc)
    (genCallOutcome : Except String GenApiResp) (genResponseTime : Nat)
    (query : String) (include_generation : Bool) : Except String SAGResult :=
  if include_generation && st.ANSWER_GENERATION_ENABLED then
    if "answer_generator" ∈ initAttrs then
      -- What lines 223-239 would compute if the attribute existed.
      let g := AnswerGenerator.generate_answer st genCallOutcome
        genResponseTime retrieved_documents
      .ok { query := query,
            generated_answer := g.answer,
            retrieved_documents := retrieved_documents,
            metadata := {
              retrieval_method := "hybrid_search_with_reranking",
              num_documents_retrieved := retrieved_documents.length,
              num_documents_used := g.num_contexts_used,
              reranker_enabled := st.RERANKER_ENABLED,
              answer_generation_enabled := st.ANSWER_GENERATION_ENABLED,
              model := g.model,
              tokens_used := g.tokens_used,
              finish_reason := some g.finish_reason,
              generation_successful := g.generation_successful,
              fallback_used := g.fallback_used,
              error := g.error } }
    else
      .error "AttributeError: HybridSearch object has no attribute answer_generator"
  else
    -- Lines 240-254: extractive fallback without calling the generator.
    let generated_answer :=
      match retrieved_documents with
      | [] => "Xin lỗi, tôi không tìm thấy thông tin liên quan đến câu hỏi của bạn."
      | top :: _ =>
          if top.abstractive_answer ≠ "" then top.abstractive_answer
          else if top.extractive_answer ≠ "" then top.extractive_answer
          else "Không tìm thấy câu trả lời phù hợp."
    .ok { query := query,
          generated_answer := generated_answer,
          retrieved_documents := retrieved_documents,
          metadata := {
            retrieval_method := "hybrid_search_with_reranking",
            num_documents_retrieved := retrieved_documents.length,
            num_documents_used := retrieved_documents.length,
            reranker_enabled := st.RERANKER_ENABLED,
            answer_generation_enabled := st.ANSWER_GENERATION_ENABLED,
            model := "none",
            tokens_used := ⟨0, 0, 0⟩,
            finish_reason := none,
            generation_successful := false,
            fallback_used := true,
            error := none } }

end HybridSearch

/-! ## Concrete fixtures used by witnesses and counterexamples -/

/-- A configuration with the reranker and answer generation enabled
(the `config.py` defaults) and an API key present. -/
def stGen : Settings :=
  { RERANKER_ENABLED := true, RERANKER_TOP_N := 5,
    ANSWER_GENERATION_ENABLED := true, OPENAI_API_KEY := "sk-test",
    ANSWER_GENERATION_MODEL := "gpt-gpt-5-nano-2025-08-07" }

/-- A configuration with the reranker disabled and `RERANKER_TOP_N` at
its `config.py` default of 5. -/
def stDis : Settings :=
  { RERANKER_ENABLED := false, RERANKER_TOP_N := 5,
    ANSWER_GENERATION_ENABLED := true, OPENAI_API_KEY := "sk-test",
    ANSWER_GENERATION_MODEL := "gpt-gpt-5-nano-2025-08-07" }

/-- A configuration with answer generation disabled in settings. -/
def stNoGen : Settings :=
  { RERANKER_ENABLED := true, RERANKER_TOP_N := 5,
    ANSWER_GENERATION_ENABLED := false, OPENAI_API_KEY := "",
    ANSWER_GENERATION_MODEL := "gpt-gpt-5-nano-2025-08-07" }

/-- A successful chat-completion response. -/
def okResp : GenApiResp :=
  { content := "Đây là câu trả lời.", prompt_tokens := 10,
    completion_tokens := 5, total_tokens := 15, finish_reason := "stop" }

/-- Six distinct candidate documents. -/
def sixDocs : List Doc :=
  [{ id := "a" }, { id := "b" }, { id := "c" },
   { id := "d" }, { id := "e" }, { id := "f" }]

/-! ## Helper lemmas about the reranker annotation loop -/

theorem length_annotateFrom (p : String → String → Int) (q : String)
    (k : Nat) (l : List Doc) :
    (Reranker.annotateFrom p q k l).length = l.length := by
  induction l generalizing k with
  | nil => rfl
  | cons x xs ih => simp [Reranker.annotateFrom, ih]

theorem annotateFrom_getElem? (p : String → String → Int) (q : String) :
    ∀ (l : List Doc) (k i : Nat) (d : Doc), l[i]? = some d →
      (Reranker.annotateFrom p q k l)[i]? =
        some { d with reranker_score := some (p q (Reranker.docText d)),
                      original_rank := some (k + i + 1) } := by
  intro l
  induction l with
  | nil => intro k i d h; simp at h
  | cons x xs ih =>
    intro k i d h
    cases i with
    | zero =>
      simp only [List.getElem?_cons_zero, Option.some.injEq] at h
      subst h
      simp [Reranker.annotateFrom]
    | succ j =>
      simp only [List.getElem?_cons_succ] at h
      have hstep : k + 1 + j + 1 = k + (j + 1) + 1 := by omega
      simp only [Reranker.annotateFrom, List.getElem?_cons_succ]
      rw [ih (k + 1) j d h, hstep]

/-- **C9** (confirmed).  When the reranker is enabled and the candidate
pool is non-empty (witnessed by a document at index `i`),
`Reranker.rerank` writes `reranker_score` and `original_rank = i + 1`
onto every document of the caller's input list — including documents
the final truncation drops — leaving every other field unchanged
(`rerankPool` is the observable state of the input list after the call). -/
theorem rerank_annotates_whole_pool (st : Settings)
    (predict : String → String → Int) (q : String) (docs : List Doc)
    (i : Nat) (d : Doc) (hen : st.RERANKER_ENABLED = true)
    (hidx : docs[i]? = some d) :
    (Reranker.rerankPool st predict q docs).length = docs.length ∧
    (Reranker.rerankPool st predict q docs)[i]? =
      some { d with reranker_score := some (predict q (Reranker.docText d)),
                    original_rank := some (i + 1) } := by
  have hne : docs.isEmpty = false := by
    cases docs with
    | nil => simp at hidx
    | cons x xs => rfl
  unfold Reranker.rerankPool
  rw [hen, hne]
  simp only [Bool.not_true, Bool.false_or, Bool.false_eq_true, if_false]
  refine ⟨length_annotateFrom predict q 0 docs, ?_⟩
  have h := annotateFrom_getElem? predict q docs 0 i d hidx
  simpa using h

/-- Witness for `rerank_annotates_whole_pool` at a concrete input. -/
theorem rerank_annotates_whole_pool_witness :
    (Reranker.rerankPool stGen (fun _ _ => 7) "q" sixDocs).length = sixDocs.length ∧
    (Reranker.rerankPool stGen (fun _ _ => 7) "q" sixDocs)[1]? =
      some { id := "b", reranker_score := some 7, original_rank := some 2 } :=
  rerank_annotates_whole_pool stGen (fun _ _ => 7) "q" sixDocs 1
    { id := "b" } rfl (by decide)

/-! ## Claims about the answer generator -/

theorem fallback_answer_flags (docs : List Doc) (e : Option String) :
    (AnswerGenerator.fallback_answer docs e).generation_successful = false ∧
    (AnswerGenerator.fallback_answer docs e).fallback_used = true := by
  cases docs <;> exact ⟨rfl, rfl⟩

/-- **C5** (confirmed).  Every outcome of
`AnswerGenerator.generate_answer` — the model-success path, the
exception path, and both fallback branches — has `fallback_used` and
`generation_successful` never both true: exactly one of the
model-generated and fallback paths produced it.  (Stated as a boolean
conjunction being false.) -/
theorem generate_answer_flags_exclusive (st : Settings)
    (callOutcome : Except String GenApiResp) (rt : Nat) (docs : List Doc) :
    ((AnswerGenerator.generate_answer st callOutcome rt docs).fallback_used &&
      (AnswerGenerator.generate_answer st callOutcome rt docs).generation_successful) = false := by
  unfold AnswerGenerator.generate_answer
  split
  · rw [(fallback_answer_flags docs none).1, Bool.and_false]
  · cases callOutcome with
    | ok r => simp
    | error e => rw [(fallback_answer_flags docs (some e)).1, Bool.and_false]

/-- **C6** (counterexample).  With answer generation enabled and a
successful model call, `generate_answer` on an *empty* candidate list
does not take the fallback path: the outcome is model-generated
(`generation_successful = true`, `fallback_used = false`), contradicting
the claim that every call with empty candidates yields the fixed
"no information found" fallback. -/
theorem generate_answer_empty_candidates_cex :
    (AnswerGenerator.generate_answer stGen (.ok okResp) 3 []).generation_successful = true ∧
    (AnswerGenerator.generate_answer stGen (.ok okResp) 3 []).fallback_used = false ∧
    (AnswerGenerator.generate_answer stGen (.ok okResp) 3 []).model = "gpt-gpt-5-nano-2025-08-07" :=
  ⟨rfl, rfl, rfl⟩

/-- **C6** (amended).  Whenever the fallback path is actually taken —
generation disabled or unconfigured, or the model call raised — an
empty candidate list yields exactly the fixed "no information found"
message with `generation_successful = false`, `fallback_used = true`
and zero token usage.  (When generation is enabled and the call
succeeds, the model answer is returned instead, even with no
candidates.) -/
theorem generate_answer_empty_fallback (st : Settings)
    (callOutcome : Except String GenApiResp) (rt : Nat) (e : String)
    (h : AnswerGenerator.enabled st = false ∨ callOutcome = .error e) :
    (AnswerGenerator.generate_answer st callOutcome rt []).answer =
      "Xin lỗi, tôi không tìm thấy thông tin liên quan đến câu hỏi của bạn trong cơ sở dữ liệu." ∧
    (AnswerGenerator.generate_answer st callOutcome rt []).generation_successful = false ∧
    (AnswerGenerator.generate_answer st callOutcome rt []).fallback_used = true ∧
    (AnswerGenerator.generate_answer st callOutcome rt []).tokens_used = ⟨0, 0, 0⟩ := by
  rcases h with he | rfl
  · unfold AnswerGenerator.generate_answer
    rw [he]
    exact ⟨rfl, rfl, rfl, rfl⟩
  · unfold AnswerGenerator.generate_answer
    split
    · exact ⟨rfl, rfl, rfl, rfl⟩
    · exact ⟨rfl, rfl, rfl, rfl⟩

/-- Witness for `generate_answer_empty_fallback`: generation disabled
in settings, empty candidates. -/
theorem generate_answer_empty_fallback_witness :
    (AnswerGenerator.generate_answer stNoGen (.ok okResp) 3 []).answer =
      "Xin lỗi, tôi không tìm thấy thông tin liên quan đến câu hỏi của bạn trong cơ sở dữ liệu." ∧
    (AnswerGenerator.generate_answer stNoGen (.ok okResp) 3 []).generation_successful = false ∧
    (AnswerGenerator.generate_answer stNoGen (.ok okResp) 3 []).fallback_used = true ∧
    (AnswerGenerator.generate_answer stNoGen (.ok okResp) 3 []).tokens_used = ⟨0, 0, 0⟩ :=
  generate_answer_empty_fallback stNoGen (.ok okResp) 3 "x" (Or.inl rfl)

/-! ## Claims about `HybridSearch.search_and_generate` -/

/-- **C10** (confirmed).  Whenever answer generation is enabled in
settings, every call of `HybridSearch.search_and_generate` with
`include_generation = True` raises `AttributeError` (the method's
outcome is the exception, never a result dict): `__init__` never
assigns `self.answer_generator`, so the generation branch is
unreachable without an exception. -/
theorem search_and_generate_attribute_error (st : Settings)
    (retrieved_documents : List Doc) (callOutcome : Except String GenApiResp)
    (rt : Nat) (q : String) (hgen : st.ANSWER_GENERATION_ENABLED = true) :
    HybridSearch.search_and_generate st retrieved_documents callOutcome rt q true =
      .error "AttributeError: HybridSearch object has no attribute answer_generator" := by
  unfold HybridSearch.search_and_generate
  rw [hgen]
  rw [if_pos (by simp), if_neg (by decide : ¬("answer_generator" ∈ HybridSearch.initAttrs))]

/-- Witness for `search_and_generate_attribute_error` at a concrete
input. -/
theorem search_and_generate_attribute_error_witness :
    HybridSearch.search_and_generate stGen sixDocs (.ok okResp) 3 "câu hỏi" true =
      .error "AttributeError: HybridSearch object has no attribute answer_generator" :=
  search_and_generate_attribute_error stGen sixDocs (.ok okResp) 3 "câu hỏi" rfl

/-! ## Claims about `Reranker.rerank` -/

/-- **C4** (counterexample).  With the reranker disabled and `top_n`
not supplied, `rerank` returns the *entire* candidate list — the
configured `RERANKER_TOP_N` default (5 here, the `config.py` default)
is not applied on the disabled path, contradicting the claim that an
unsupplied `top_n` always defaults to the configured value. -/
theorem rerank_disabled_default_cex :
    Reranker.rerank stDis (fun _ _ => 0) "q" sixDocs none = sixDocs ∧
    sixDocs.length = 6 ∧ stDis.RERANKER_TOP_N = 5 ∧
    (Reranker.rerank stDis (fun _ _ => 0) "q" sixDocs none ==
      sixDocs.take stDis.RERANKER_TOP_N) = false := by
  refine ⟨rfl, rfl, rfl, ?_⟩
  decide

/-- **C4** (amended).  With the reranker disabled, `rerank` is the
identity up to truncation only when `top_n` is supplied and non-zero;
when `top_n` is absent (or zero, both falsy in Python) the whole list
is returned unchanged and the configured `RERANKER_TOP_N` default is
*not* applied — that default takes effect only on the enabled path. -/
theorem rerank_disabled_amended (st st' : Settings)
    (predict : String → String → Int) (q : String) (docs : List Doc) (n : Nat)
    (hdis : st.RERANKER_ENABLED = false) (hn : n ≠ 0)
    (hen : st'.RERANKER_ENABLED = true) (hne : docs ≠ []) :
    Reranker.rerank st predict q docs (some n) = docs.take n ∧
    Reranker.rerank st predict q docs none = docs ∧
    Reranker.rerank st predict q docs (some 0) = docs ∧
    Reranker.rerank st' predict q docs none =
      Reranker.rerank st' predict q docs (some st'.RERANKER_TOP_N) := by
  have hie : docs.isEmpty = false := by
    cases docs with
    | nil => exact absurd rfl hne
    | cons x xs => rfl
  refine ⟨?_, ?_, ?_, ?_⟩
  · unfold Reranker.rerank
    rw [hdis]
    simp [hn]
  · unfold Reranker.rerank
    rw [hdis]
    simp
  · unfold Reranker.rerank
    rw [hdis]
    simp
  · unfold Reranker.rerank
    rw [hen, hie]
    by_cases h0 : st'.RERANKER_TOP_N = 0 <;> simp [h0]

/-- Witness for `rerank_disabled_amended` at concrete inputs. -/
theorem rerank_disabled_amended_witness :
    Reranker.rerank stDis (fun _ _ => 0) "q" sixDocs (some 2) = sixDocs.take 2 ∧
    Reranker.rerank stDis (fun _ _ => 0) "q" sixDocs none = sixDocs ∧
    Reranker.rerank stDis (fun _ _ => 0) "q" sixDocs (some 0) = sixDocs ∧
    Reranker.rerank stGen (fun _ _ => 0) "q" sixDocs none =
      Reranker.rerank stGen (fun _ _ => 0) "q" sixDocs (some stGen.RERANKER_TOP_N) :=
  rerank_disabled_amended stDis stGen (fun _ _ => 0) "q" sixDocs 2 rfl
    (by decide) rfl (by decide)

/-! ## Helper lemmas for the reranker sorting claim -/

theorem pair_sublist_of_mem_ne {α : Type _} {a b : α} {l : List α}
    (ha : a ∈ l) (hb : b ∈ l) (hne : a ≠ b) :
    List.Sublist [a, b] l ∨ List.Sublist [b, a] l := by
  induction l with
  | nil => cases ha
  | cons x xs ih =>
    rcases List.mem_cons.mp ha with rfl | ha'
    · have hb' : b ∈ xs := by
        rcases List.mem_cons.mp hb with rfl | hb'
        · exact absurd rfl hne
        · exact hb'
      exact Or.inl ((List.singleton_sublist.mpr hb').cons₂ a)
    · rcases List.mem_cons.mp hb with rfl | hb'
      · exact Or.inr ((List.singleton_sublist.mpr ha').cons₂ b)
      · rcases ih ha' hb' with h | h
        · exact Or.inl (h.cons x)
        · exact Or.inr (h.cons x)

theorem pair_sublist_antisymm {α : Type _} {a b : α} {l : List α}
    (hnd : l.Nodup) (h1 : List.Sublist [a, b] l) (h2 : List.Sublist [b, a] l) :
    a = b := by
  induction l with
  | nil => simp at h1
  | cons x xs ih =>
    cases h1 with
    | cons _ h1' =>
      cases h2 with
      | cons _ h2' => exact ih (List.nodup_cons.mp hnd).2 h1' h2'
      | cons₂ h2' =>
          exact absurd (h1'.subset (by simp)) (List.nodup_cons.mp hnd).1
    | cons₂ h1' =>
      cases h2 with
      | cons _ h2' =>
          exact absurd (h2'.subset (by simp)) (List.nodup_cons.mp hnd).1
      | cons₂ h2' => rfl

theorem annotateFrom_orD_gt (p : String → String → Int) (q : String) :
    ∀ (l : List Doc) (k : Nat) (d : Doc),
      d ∈ Reranker.annotateFrom p q k l → k < Reranker.orD d := by
  intro l
  induction l with
  | nil => intro k d hd; cases hd
  | cons x xs ih =>
    intro k d hd
    rcases List.mem_cons.mp hd with rfl | hd'
    · simp [Reranker.orD]
    · exact Nat.lt_of_succ_lt (ih (k + 1) d hd')

theorem annotateFrom_pairwise_orD (p : String → String → Int) (q : String) :
    ∀ (l : List Doc) (k : Nat),
      (Reranker.annotateFrom p q k l).Pairwise
        (fun a b => Reranker.orD a < Reranker.orD b) := by
  intro l
  induction l with
  | nil => intro k; exact List.Pairwise.nil
  | cons x xs ih =>
    intro k
    refine List.Pairwise.cons ?_ (ih (k + 1))
    intro d hd
    exact annotateFrom_orD_gt p q xs (k + 1) d hd

theorem annotateFrom_map_id (p : String → String → Int) (q : String) :
    ∀ (l : List Doc) (k : Nat),
      (Reranker.annotateFrom p q k l).map Doc.id = l.map Doc.id := by
  intro l
  induction l with
  | nil => intro k; rfl
  | cons x xs ih => intro k; simp [Reranker.annotateFrom, ih]

theorem annotate_nodup (p : String → String → Int) (q : String)
    (docs : List Doc) : (Reranker.annotate p q docs).Nodup := by
  refine (annotateFrom_pairwise_orD p q docs 0).imp ?_
  intro a b hlt heq
  rw [heq] at hlt
  exact Nat.lt_irrefl _ hlt

theorem rerankLE_trans : ∀ (a b c : Doc), Reranker.rerankLE a b →
    Reranker.rerankLE b c → Reranker.rerankLE a c := by
  intro a b c hab hbc
  simp only [Reranker.rerankLE, decide_eq_true_eq] at *
  omega

theorem rerankLE_total : ∀ (a b : Doc),
    Reranker.rerankLE a b || Reranker.rerankLE b a := by
  intro a b
  simp only [Reranker.rerankLE, Bool.or_eq_true, decide_eq_true_eq]
  omega

/-- **C2** (amended).  With the reranker enabled and a supplied
*non-zero* `top_n = n` with `n ≤ |documents|` (a supplied 0 is falsy in
Python and is replaced by the configured default — see the
counterexample), `Reranker.rerank` returns at
most `n` candidates whose identities all come from the input pool,
ordered by descending `reranker_score` with ties kept in the
candidates' original relative order (the stable-sort property, stated
as: consecutive-pair scores are non-increasing and equal scores imply
increasing `original_rank`). -/
theorem rerank_enabled_spec (st : Settings)
    (predict : String → String → Int) (q : String) (docs : List Doc)
    (n : Nat) (hen : st.RERANKER_ENABLED = true) (hn : 0 < n)
    (hlen : n ≤ docs.length) :
    (Reranker.rerank st predict q docs (some n)).length ≤ n ∧
    (Reranker.rerank st predict q docs (some n)).map Doc.id ⊆ docs.map Doc.id ∧
    (Reranker.rerank st predict q docs (some n)).Pairwise
      (fun a b => Reranker.rsD b ≤ Reranker.rsD a ∧
        (Reranker.rsD a = Reranker.rsD b → Reranker.orD a < Reranker.orD b)) := by
  have hie : docs.isEmpty = false := by
    cases docs with
    | nil => simp at hlen; omega
    | cons x xs => rfl
  have hrw : Reranker.rerank st predict q docs (some n) =
      ((Reranker.annotate predict q docs).mergeSort Reranker.rerankLE).take n := by
    unfold Reranker.rerank
    rw [hen, hie]
    simp [Nat.pos_iff_ne_zero.mp hn]
  set l := Reranker.annotate predict q docs with hl
  set out0 := l.mergeSort Reranker.rerankLE with hout0
  -- the annotated pool is pairwise strictly increasing in original_rank
  have hpw_or : l.Pairwise (fun a b => Reranker.orD a < Reranker.orD b) :=
    annotateFrom_pairwise_orD predict q docs 0
  have hnd : l.Nodup := annotate_nodup predict q docs
  have hnd0 : out0.Nodup := (List.mergeSort_perm l _).nodup_iff.mpr hnd
  have hsorted := List.sorted_mergeSort rerankLE_trans rerankLE_total l
  -- stability: an equal-score pair in the output keeps its input order
  have hstab : ∀ x y : Doc, List.Sublist [x, y] out0 →
      Reranker.rsD x = Reranker.rsD y → Reranker.orD x < Reranker.orD y := by
    intro x y hsub heq
    have hx : x ∈ l := List.mem_mergeSort.mp (hsub.subset (by simp))
    have hy : y ∈ l := List.mem_mergeSort.mp (hsub.subset (by simp))
    have hxy : x ≠ y := List.pairwise_iff_forall_sublist.mp hnd0 hsub
    rcases pair_sublist_of_mem_ne hx hy hxy with h | h
    · exact List.pairwise_iff_forall_sublist.mp hpw_or h
    · have hle : Reranker.rerankLE y x = true := by
        simp only [Reranker.rerankLE, decide_eq_true_eq]
        omega
      have h2 : List.Sublist [y, x] out0 :=
        List.pair_sublist_mergeSort rerankLE_trans rerankLE_total hle h
      exact absurd (pair_sublist_antisymm hnd0 hsub h2) hxy
  have hpair : out0.Pairwise
      (fun a b => Reranker.rsD b ≤ Reranker.rsD a ∧
        (Reranker.rsD a = Reranker.rsD b → Reranker.orD a < Reranker.orD b)) := by
    rw [List.pairwise_iff_forall_sublist]
    intro a b hsub
    refine ⟨?_, fun heq => hstab a b hsub heq⟩
    have := List.pairwise_iff_forall_sublist.mp hsorted hsub
    simpa [Reranker.rerankLE] using this
  rw [hrw]
  refine ⟨List.length_take_le n out0, ?_, hpair.sublist (List.take_sublist n out0)⟩
  intro i hi
  rcases List.mem_map.mp hi with ⟨d, hd, rfl⟩
  have hd0 : d ∈ out0 := (List.take_sublist n out0).subset hd
  have hdl : d ∈ l := List.mem_mergeSort.mp hd0
  have : d.id ∈ l.map Doc.id := List.mem_map_of_mem Doc.id hdl
  rwa [hl, Reranker.annotate, annotateFrom_map_id predict q docs 0] at this

/-- Three distinct candidates for the reranker witness. -/
def threeDocs : List Doc :=
  [{ id := "a", question := "qa" }, { id := "b", question := "qb" },
   { id := "c", question := "qc" }]

/-- A cross-encoder oracle producing a tie between the first two
candidates of `threeDocs` and a lower score for the third. -/
def prTie : String → String → Int := fun _ t => if t = "qc " then 3 else 5

/-- Witness for `rerank_enabled_spec` at a concrete input with a score
tie. -/
theorem rerank_enabled_spec_witness :
    (Reranker.rerank stGen prTie "q" threeDocs (some 2)).length ≤ 2 ∧
    (Reranker.rerank stGen prTie "q" threeDocs (some 2)).map Doc.id ⊆
      threeDocs.map Doc.id ∧
    (Reranker.rerank stGen prTie "q" threeDocs (some 2)).Pairwise
      (fun a b => Reranker.rsD b ≤ Reranker.rsD a ∧
        (Reranker.rsD a = Reranker.rsD b → Reranker.orD a < Reranker.orD b)) :=
  rerank_enabled_spec stGen prTie "q" threeDocs 2 rfl (by decide) (by decide)

/-! ## Helper lemmas about non-empty answers -/

theorem length_pos_of_ne_empty {s : String} (h : s ≠ "") : 0 < s.length := by
  cases s with
  | mk data =>
    cases data with
    | nil => exact absurd rfl h
    | cons c cs => simp [String.length]

theorem fallback_answer_nonempty (d : Doc) (ds : List Doc) (e : Option String) :
    0 < (AnswerGenerator.fallback_answer (d :: ds) e).answer.length := by
  unfold AnswerGenerator.fallback_answer
  simp only [String.length_append]
  by_cases h1 : d.abstractive_answer ≠ ""
  · rw [if_pos h1]
    have := length_pos_of_ne_empty h1
    omega
  · rw [if_neg h1]
    by_cases h2 : d.extractive_answer ≠ ""
    · rw [if_pos h2]
      have := length_pos_of_ne_empty h2
      omega
    · rw [if_neg h2]
      have : 0 < ("Xin lỗi, tôi không thể tạo câu trả lời cho câu hỏi này." : String).length := by
        decide
      omega

/-! ## Claims about the orchestrator -/

/-- A full-pipeline oracle bundle: retrieval returns one document and
the generation model responds successfully but with an *empty* message
content. -/
def oEmptyContent : Workflow.Oracles :=
  { searchOutcome := .ok [{ id := "a", question := "Học phí?" }],
    genCallOutcome := .ok { content := "", prompt_tokens := 1,
                            completion_tokens := 0, total_tokens := 1,
                            finish_reason := "stop" },
    genResponseTime := 0, genNodeExc := none, invokeExc := none }

/-- **C1** (counterexample).  A run on a non-empty query in which every
stage succeeds but the generation model returns empty message content
yields an *empty* `answer` field: the orchestrator passes the trimmed
model output through verbatim, so the claim that every run returns a
non-empty answer fails. -/
theorem run_empty_answer_cex :
    pyStrip "Học phí bao nhiêu?" = "Học phí bao nhiêu?" ∧
    (Workflow.run stGen oEmptyContent "Học phí bao nhiêu?" none).answer = "" := by
  constructor
  · decide
  · rfl

theorem format_output_answer (st : Settings) (s : ChatbotState) :
    (Workflow.format_output st s).answer = s.answer := rfl

theorem handle_no_context_answer (s : ChatbotState) :
    (Workflow.handle_no_context s).answer = Workflow.noContextAnswer := rfl

set_option maxRecDepth 8192 in
theorem noContextAnswer_length_pos : 0 < Workflow.noContextAnswer.length := by decide

theorem generate_answer_node_answer_exc (st : Settings)
    (g : Except String GenApiResp) (rt : Nat) (e : String) (s : ChatbotState) :
    (Workflow.generate_answer_node st g rt (some e) s).answer =
      "Xin lỗi, tôi gặp lỗi khi tạo câu trả lời. Vui lòng thử lại." := rfl

theorem generate_answer_node_answer (st : Settings)
    (g : Except String GenApiResp) (rt : Nat) (s : ChatbotState) :
    (Workflow.generate_answer_node st g rt none s).answer =
      (AnswerGenerator.generate_answer st g rt s.retrieved_documents).answer := rfl

set_option maxRecDepth 4096 in
theorem workflow_apology_lengths_pos :
    0 < ("Xin lỗi, hệ thống gặp lỗi. Vui lòng thử lại sau." : String).length ∧
    0 < ("Xin lỗi, tôi gặp lỗi khi tạo câu trả lời. Vui lòng thử lại." : String).length := by
  constructor <;> decide

/-- **C1** (amended).  Every run of the orchestrator on a query with
non-empty trimmed text returns a non-empty `answer`, *provided* that a
successful generation call carries non-empty trimmed message content;
the orchestrator passes a successful model output through verbatim, so
an all-whitespace model response is the one degradation that surfaces
as an empty answer (see the counterexample). -/
theorem run_answer_nonempty (st : Settings) (o : Workflow.Oracles)
    (q : String) (hist : Option (List (String × String)))
    (hq : pyStrip q ≠ "")
    (hgen : ∀ r, o.genCallOutcome = Except.ok r → pyStrip r.content ≠ "") :
    0 < (Workflow.run st o q hist).answer.length := by
  obtain ⟨searchO, genO, rt, ne, ie⟩ := o
  cases ie with
  | some e => exact workflow_apology_lengths_pos.1
  | none =>
    show 0 < (Workflow.invoke st ⟨searchO, genO, rt, ne, none⟩
      (Workflow.initialState q hist)).answer.length
    unfold Workflow.invoke
    rw [format_output_answer]
    have hs1 : Workflow.validate_input (Workflow.initialState q hist) =
        { query := pyStrip q, conversation_history := hist,
          retrieved_documents := [], context := "", answer := "",
          sources := [], metadata := Metadata.empty,
          should_retrieve := true, has_context := false, error := none } := by
      simp only [Workflow.validate_input, Workflow.initialState]
      rw [if_neg hq]
    rw [hs1]
    cases searchO with
    | error e =>
        rw [if_neg (by simp [Workflow.retrieve_context, Workflow.check_context])]
        rw [handle_no_context_answer]
        exact noContextAnswer_length_pos
    | ok docs =>
        cases docs with
        | nil =>
            rw [if_neg (by simp [Workflow.retrieve_context, Workflow.check_context])]
            rw [handle_no_context_answer]
            exact noContextAnswer_length_pos
        | cons d ds =>
            rw [if_pos (by simp [Workflow.retrieve_context, Workflow.check_context])]
            cases ne with
            | some e =>
                rw [generate_answer_node_answer_exc]
                exact workflow_apology_lengths_pos.2
            | none =>
                rw [generate_answer_node_answer]
                have hdocs : (Workflow.retrieve_context (.ok (d :: ds))
                    { query := pyStrip q, conversation_history := hist,
                      retrieved_documents := [], context := "", answer := "",
                      sources := [], metadata := Metadata.empty,
                      should_retrieve := true, has_context := false,
                      error := none }).retrieved_documents = d :: ds := rfl
                rw [hdocs]
                unfold AnswerGenerator.generate_answer
                split
                · exact fallback_answer_nonempty d ds none
                · cases genO with
                  | ok r => exact length_pos_of_ne_empty (hgen r rfl)
                  | error e => exact fallback_answer_nonempty d ds (some e)

/-- An oracle bundle where every stage succeeds with non-empty model
content. -/
def oHappy : Workflow.Oracles :=
  { searchOutcome := .ok [{ id := "a", question := "Học phí?",
                            abstractive_answer := "10 triệu" }],
    genCallOutcome := .ok okResp,
    genResponseTime := 2, genNodeExc := none, invokeExc := none }

/-- Witness for `run_answer_nonempty` at a concrete input. -/
theorem run_answer_nonempty_witness :
    0 < (Workflow.run stGen oHappy "Học phí bao nhiêu?" none).answer.length :=
  run_answer_nonempty stGen oHappy "Học phí bao nhiêu?" none (by decide)
    (fun r h => by cases h; decide)

/-- An oracle bundle whose retrieval call raises. -/
def oRetErr : Workflow.Oracles :=
  { searchOutcome := .error "ConnectionError", genCallOutcome := .ok okResp,
    genResponseTime := 0, genNodeExc := none, invokeExc := none }

/-- **C3** (counterexample).  A run whose retrieval stage raises and is
recovered to the no-context branch returns metadata whose `error` key
is *absent*: `handle_no_context` rebuilds the metadata dict from
scratch and `run` never copies the state's `error` field into the
returned record, so the recovered error is not recorded in the returned
metadata (it is present in the internal workflow state, third
conjunct). -/
theorem retrieval_error_not_in_metadata_cex :
    (Workflow.run stGen oRetErr "Học phí bao nhiêu?" none).metadata.error = none ∧
    (Workflow.run stGen oRetErr "Học phí bao nhiêu?" none).answer =
      Workflow.noContextAnswer ∧
    (Workflow.invoke stGen oRetErr
        (Workflow.initialState "Học phí bao nhiêu?" none)).error =
      some "Retrieval error: ConnectionError" :=
  ⟨rfl, rfl, rfl⟩

/-- **C3** (amended).  A recovered retrieval failure is recorded in the
workflow *state's* `error` field and never raises past the orchestrator
(the run still returns the complete no-context answer), but the
returned record's metadata `error` key is absent — the no-context
branch rebuilds the metadata without it. -/
theorem retrieval_error_recorded_in_state (st : Settings)
    (genO : Except String GenApiResp) (rt : Nat) (ne : Option String)
    (q : String) (hist : Option (List (String × String))) (e : String)
    (hq : pyStrip q ≠ "") :
    (Workflow.invoke st ⟨.error e, genO, rt, ne, none⟩
        (Workflow.initialState q hist)).error =
      some ("Retrieval error: " ++ e) ∧
    (Workflow.run st ⟨.error e, genO, rt, ne, none⟩ q hist).metadata.error = none ∧
    (Workflow.run st ⟨.error e, genO, rt, ne, none⟩ q hist).answer =
      Workflow.noContextAnswer := by
  have hs1 : Workflow.validate_input (Workflow.initialState q hist) =
      { query := pyStrip q, conversation_history := hist,
        retrieved_documents := [], context := "", answer := "",
        sources := [], metadata := Metadata.empty,
        should_retrieve := true, has_context := false, error := none } := by
    simp only [Workflow.validate_input, Workflow.initialState]
    rw [if_neg hq]
  refine ⟨?_, ?_, ?_⟩
  · unfold Workflow.invoke
    rw [hs1]
    rfl
  · unfold Workflow.run Workflow.invoke
    rw [hs1]
    rfl
  · unfold Workflow.run Workflow.invoke
    rw [hs1]
    rfl

/-- Witness for `retrieval_error_recorded_in_state` at a concrete
input. -/
theorem retrieval_error_recorded_in_state_witness :
    (Workflow.invoke stGen ⟨.error "boom", .ok okResp, 0, none, none⟩
        (Workflow.initialState "Học phí?" none)).error =
      some ("Retrieval error: " ++ "boom") ∧
    (Workflow.run stGen ⟨.error "boom", .ok okResp, 0, none, none⟩
        "Học phí?" none).metadata.error = none ∧
    (Workflow.run stGen ⟨.error "boom", .ok okResp, 0, none, none⟩
        "Học phí?" none).answer = Workflow.noContextAnswer :=
  retrieval_error_recorded_in_state stGen (.ok okResp) 0 none "Học phí?" none
    "boom" (by decide)

/-- **C7** (confirmed).  A query that is empty after trimming makes
`validate_input` record the "Empty query" error and clear
`should_retrieve`; `retrieve_context` then skips the retriever entirely
(no dependence on the search oracle, empty candidates, no context), and
the run goes straight to the no-context branch: the returned record is
identical for *any* search/generation oracles and carries the fixed
no-context answer with `reason = "no_context_found"`. -/
theorem run_empty_query_skips_retrieval (st : Settings)
    (searchO searchO' : Except String (List Doc))
    (genO genO' : Except String GenApiResp) (rt rt' : Nat)
    (ne ne' : Option String) (q : String)
    (hist : Option (List (String × String)))
    (hq : pyStrip q = "") :
    (Workflow.validate_input (Workflow.initialState q hist)).should_retrieve = false ∧
    (Workflow.validate_input (Workflow.initialState q hist)).error = some "Empty query" ∧
    (Workflow.retrieve_context searchO
        (Workflow.validate_input (Workflow.initialState q hist))).retrieved_documents = [] ∧
    (Workflow.retrieve_context searchO
        (Workflow.validate_input (Workflow.initialState q hist))).has_context = false ∧
    Workflow.run st ⟨searchO, genO, rt, ne, none⟩ q hist =
      Workflow.run st ⟨searchO', genO', rt', ne', none⟩ q hist ∧
    (Workflow.run st ⟨searchO, genO, rt, ne, none⟩ q hist).answer =
      Workflow.noContextAnswer ∧
    (Workflow.run st ⟨searchO, genO, rt, ne, none⟩ q hist).metadata.reason =
      some "no_context_found" := by
  have hs1 : Workflow.validate_input (Workflow.initialState q hist) =
      { query := q, conversation_history := hist, retrieved_documents := [],
        context := "", answer := "", sources := [], metadata := Metadata.empty,
        should_retrieve := false, has_context := false,
        error := some "Empty query" } := by
    simp only [Workflow.validate_input, Workflow.initialState]
    rw [if_pos hq]
  refine ⟨?_, ?_, ?_, ?_, ?_, ?_, ?_⟩
  · rw [hs1]
  · rw [hs1]
  · rw [hs1]
    rfl
  · rw [hs1]
    rfl
  · unfold Workflow.run Workflow.invoke
    rw [hs1]
    rfl
  · unfold Workflow.run Workflow.invoke
    rw [hs1]
    rfl
  · unfold Workflow.run Workflow.invoke
    rw [hs1]
    rfl

/-- Witness for `run_empty_query_skips_retrieval` on the whitespace
query of the spec's Scenario D. -/
theorem run_empty_query_skips_retrieval_witness :
    (Workflow.validate_input (Workflow.initialState "   " none)).should_retrieve = false ∧
    (Workflow.validate_input (Workflow.initialState "   " none)).error = some "Empty query" ∧
    (Workflow.retrieve_context (.ok sixDocs)
        (Workflow.validate_input (Workflow.initialState "   " none))).retrieved_documents = [] ∧
    (Workflow.retrieve_context (.ok sixDocs)
        (Workflow.validate_input (Workflow.initialState "   " none))).has_context = false ∧
    Workflow.run stGen ⟨.ok sixDocs, .ok okResp, 1, none, none⟩ "   " none =
      Workflow.run stGen ⟨.error "down", .error "down", 9, some "x", none⟩ "   " none ∧
    (Workflow.run stGen ⟨.ok sixDocs, .ok okResp, 1, none, none⟩ "   " none).answer =
      Workflow.noContextAnswer ∧
    (Workflow.run stGen ⟨.ok sixDocs, .ok okResp, 1, none, none⟩ "   " none).metadata.reason =
      some "no_context_found" :=
  run_empty_query_skips_retrieval stGen (.ok sixDocs) (.error "down")
    (.ok okResp) (.error "down") 1 9 none (some "x") "   " none (by decide)

theorem generate_answer_rt_proj (st : Settings)
    (genO : Except String GenApiResp) (rt rt' : Nat) (docs : List Doc) :
    (AnswerGenerator.generate_answer st genO rt docs).answer =
      (AnswerGenerator.generate_answer st genO rt' docs).answer ∧
    (AnswerGenerator.generate_answer st genO rt docs).model =
      (AnswerGenerator.generate_answer st genO rt' docs).model ∧
    (AnswerGenerator.generate_answer st genO rt docs).tokens_used =
      (AnswerGenerator.generate_answer st genO rt' docs).tokens_used ∧
    (AnswerGenerator.generate_answer st genO rt docs).generation_successful =
      (AnswerGenerator.generate_answer st genO rt' docs).generation_successful ∧
    (AnswerGenerator.generate_answer st genO rt docs).fallback_used =
      (AnswerGenerator.generate_answer st genO rt' docs).fallback_used := by
  unfold AnswerGenerator.generate_answer
  split
  · exact ⟨rfl, rfl, rfl, rfl, rfl⟩
  · cases genO <;> exact ⟨rfl, rfl, rfl, rfl, rfl⟩

theorem generate_answer_node_rt_invariant (st : Settings)
    (genO : Except String GenApiResp) (rt rt' : Nat) (ne : Option String)
    (s : ChatbotState) :
    Workflow.generate_answer_node st genO rt ne s =
      Workflow.generate_answer_node st genO rt' ne s := by
  cases ne with
  | some e => rfl
  | none =>
    obtain ⟨h1, h2, h3, h4, h5⟩ :=
      generate_answer_rt_proj st genO rt rt' s.retrieved_documents
    unfold Workflow.generate_answer_node
    simp only [h1, h2, h3, h4, h5]

/-- **C8** (confirmed).  The formatted result of a run is a pure
function of the query, the history and the external-service outcomes:
two runs with identical query, history and oracles but different
ambient wall-clock readings (the generator's measured response time —
the only modelled nondeterministic input besides the external
responses, it reaches only the generator's `response_time` field and
the audit log) return identical `{query, answer, sources, metadata}`
records. -/
theorem run_deterministic (st : Settings)
    (searchO : Except String (List Doc)) (genO : Except String GenApiResp)
    (ne ie : Option String) (rt rt' : Nat) (q : String)
    (hist : Option (List (String × String))) :
    Workflow.run st ⟨searchO, genO, rt, ne, ie⟩ q hist =
      Workflow.run st ⟨searchO, genO, rt', ne, ie⟩ q hist := by
  cases ie with
  | some e => rfl
  | none =>
    have hnode : ∀ s, Workflow.generate_answer_node st genO rt ne s =
        Workflow.generate_answer_node st genO rt' ne s :=
      fun s => generate_answer_node_rt_invariant st genO rt rt' ne s
    simp only [Workflow.run, Workflow.invoke, hnode]

/-- **C2** (counterexample).  With the reranker enabled, a *supplied*
`top_n = 0` (which satisfies `top_n ≤ input size`) does not bound the
result: Python treats 0 as falsy, so `top_n = top_n or
settings.RERANKER_TOP_N` (reranker.py line 60) substitutes the
configured default and `rerank` returns 5 of the 6 candidates — size 5
is not ≤ the supplied `top_n = 0`, refuting the claim as quantified. -/
theorem rerank_top_n_zero_cex :
    (Reranker.rerank stGen (fun _ _ => 7) "q" sixDocs (some 0)).length = 5 ∧
    stGen.RERANKER_TOP_N = 5 ∧ sixDocs.length = 6 := by
  refine ⟨?_, rfl, rfl⟩
  have h1 : Reranker.rerank stGen (fun _ _ => 7) "q" sixDocs (some 0) =
      ((Reranker.annotate (fun _ _ => 7) "q" sixDocs).mergeSort
        Reranker.rerankLE).take 5 := rfl
  have hsorted : (Reranker.annotate (fun _ _ => 7) "q" sixDocs).Pairwise
      (fun a b => Reranker.rerankLE a b = true) := by decide
  rw [h1, List.mergeSort_of_sorted hsorted]
  rfl
